import Mathlib

/-!
# Verification of the Multi-Agent AI System repository

Shallow embedding of the repository's Python sources into Lean 4:

* `shared_memory.py` — `MemoryEntry`, `SharedMemory` (an insertion-ordered
  dictionary modelled as an association list, with the in-place mutation
  performed by `get_entry` / `get_thread_history` made explicit by returning
  the updated store).
* `classifier_agent.py` — format detection, intent detection, keyword
  scoring and the two-value confidence average.
* `email_agent.py` — first-match regex intent analysis, urgency, entity
  extraction (regex engines are oracle parameters).
* `json_agent.py` — schema validation, data formatting, anomaly checks.
* `main.py` — the `/process` and `/process/file` endpoint handlers with
  their exception-to-HTTP-500 wrapping.

Python library calls that are not part of the repository (`json.loads`,
`email.parser.Parser`, `PyPDF2.PdfReader`, `re.findall`, UTF-8 decoding)
are modelled as fields of an oracle structure `Libs`; theorems quantify
over every oracle.  Python `datetime` objects are modelled by their
numeric timestamp (`Nat`); `isoformat` / `fromisoformat` are the two
directions of the lossless tagged conversion `TsField.iso` / `TsField.dt`,
and `json.dumps` / `json.loads` of a JSON-serialisable dict likewise by
`EvField.ser` / `EvField.obj`.  Python floats are modelled as exact
rationals.
-/

/-- Model of a Python JSON-style value (the payloads flowing through the
agents: parsed request bodies, metadata dictionaries, result dictionaries).
Numbers are modelled as exact rationals. -/
inductive JVal where
  | str (s : String)
  | num (q : ℚ)
  | bool (b : Bool)
  | null
  | arr (xs : List JVal)
  | obj (fs : List (String × JVal))

/-- A Python dictionary with string keys, in insertion order. -/
abbrev JDict := List (String × JVal)

/-- A Python bytes object, as its list of byte values. -/
abbrev Bytes := List Nat

/-- The Python exceptions that the embedded code can raise. -/
inductive PyExc where
  | valueError (msg : String)
  | typeError (msg : String)
  | keyError (key : String)
  | attrError (attr : String)
  | validationError (msg : String)
  | jsonDecodeError (msg : String)
  | httpExc (status : Nat) (detail : String)
deriving DecidableEq

/-- Model of Python `str(e)` on the exceptions above.  `str` of a
`KeyError` shows the repr of the key; starlette's `HTTPException.__str__`
renders `"{status_code}: {detail}"`. -/
def pyStr : PyExc → String
  | .valueError m => m
  | .typeError m => m
  | .keyError k => "\x27" ++ k ++ "\x27"
  | .attrError a => "object has no attribute " ++ a
  | .validationError m => m
  | .jsonDecodeError m => m
  | .httpExc s d => toString s ++ ": " ++ d

/-- Test that `sub` is a prefix of `s`, over character lists. -/
def isPrefixChars : List Char → List Char → Bool
  | [], _ => true
  | _ :: _, [] => false
  | a :: as, b :: bs => a == b && isPrefixChars as bs

/-- Test that `sub` occurs in `s`, over character lists: some suffix of `s` starts
with `sub`. -/
def containsChars (sub : List Char) : List Char → Bool
  | [] => isPrefixChars sub []
  | b :: bs => isPrefixChars sub (b :: bs) || containsChars sub bs

/-- Model of the Python substring test `sub in s` (for `str`).  The empty
string occurs in everything, matching Python. -/
def pyIn (sub s : String) : Bool :=
  containsChars sub.data s.data

/-- ASCII lowercasing over the character list (the model of Python
`str.lower()`; the repository's inputs are ASCII keywords). -/
def asciiLower (s : String) : String :=
  String.mk (s.data.map Char.toLower)

/-- Strip leading and trailing whitespace (the model of Python
`str.strip()`). -/
def asciiTrim (s : String) : String :=
  String.mk (((s.data.dropWhile Char.isWhitespace).reverse.dropWhile Char.isWhitespace).reverse)

/-- Lookup in a Python dict model: `d.get(k)` returning `None` when absent. -/
def jdictGet (d : JDict) (k : String) : Option JVal :=
  (d.find? (fun p => p.1 == k)).map (fun p => p.2)

/-- Python `d[k] = v` on a dict: replace in place if the key exists,
otherwise append (insertion order). -/
def jdictSet (d : JDict) (k : String) (v : JVal) : JDict :=
  if d.any (fun p => p.1 == k) then
    d.map (fun p => if p.1 == k then (k, v) else p)
  else
    d ++ [(k, v)]

/-- Python truthiness of a JSON-style value (`bool(v)`). -/
def jTruthy : JVal → Bool
  | .str s => s != ""
  | .num q => q != 0
  | .bool b => b
  | .null => false
  | .arr xs => !xs.isEmpty
  | .obj fs => !fs.isEmpty

/-- Python `v == key` for a string `key` against a JSON value: only a
`str` with the same characters compares equal. -/
def jIsStrEq (v : JVal) (s : String) : Bool :=
  match v with
  | .str t => t == s
  | _ => false

/-- Python `key in data` for a parsed JSON value `data`: key lookup for a
dict, membership for a list, substring test for a string, `TypeError`
otherwise. -/
def pyContains (data : JVal) (key : String) : Except PyExc Bool :=
  match data with
  | .obj fs => .ok (fs.any (fun p => p.1 == key))
  | .arr xs => .ok (xs.any (fun x => jIsStrEq x key))
  | .str s => .ok (pyIn key s)
  | _ => .error (.typeError "argument is not iterable")

/-- Python `data[key]` for a parsed JSON value: dict lookup (raising
`KeyError` when absent), `TypeError` on anything else. -/
def pyGetItem (data : JVal) (key : String) : Except PyExc JVal :=
  match data with
  | .obj fs =>
    match (fs.find? (fun p => p.1 == key)).map (fun p => p.2) with
    | some v => .ok v
    | none => .error (.keyError key)
  | _ => .error (.typeError "indices must be integers")

/-- Python `v.lower()`: defined on `str`, `AttributeError` otherwise. -/
def pyLower : JVal → Except PyExc String
  | .str s => .ok (asciiLower s)
  | _ => .error (.attrError "lower")

/-- Python `v.get(k, default)` for a parsed JSON value: defined on dicts,
`AttributeError` on anything else (lists and scalars have no `.get`). -/
def pyDictGetD (data : JVal) (k : String) (d : JVal) : Except PyExc JVal :=
  match data with
  | .obj fs => .ok (((fs.find? (fun p => p.1 == k)).map (fun p => p.2)).getD d)
  | _ => .error (.attrError "get")

/-- Lookup `d.get(k)` on a `JDict` with default `None` (total, used on the
dictionaries the code itself builds). -/
def jGetD (d : JDict) (k : String) : JVal :=
  ((d.find? (fun p => p.1 == k)).map (fun p => p.2)).getD .null

/-- Python `v <= 0` where `v` came out of a dict: numbers and bools
compare, everything else raises `TypeError`. -/
def pyLeZero : JVal → Except PyExc Bool
  | .num q => .ok (q ≤ 0)
  | .bool b => .ok (b = false)
  | _ => .error (.typeError "not supported between instances")

mutual

/-- Model of `json.dumps` with Python's default separators.  Literal
braces are written with their escapes. -/
def json_dumps : JVal → String
  | .str s => "\"" ++ s ++ "\""
  | .num q => toString q
  | .bool b => if b then "true" else "false"
  | .null => "null"
  | .arr xs => "[" ++ json_dumps_list xs ++ "]"
  | .obj fs => "\x7b" ++ json_dumps_fields fs ++ "\x7d"

/-- Rendering by `json.dumps` of the elements of a JSON array, comma-separated. -/
def json_dumps_list : List JVal → String
  | [] => ""
  | [x] => json_dumps x
  | x :: y :: xs => json_dumps x ++ ", " ++ json_dumps_list (y :: xs)

/-- Rendering by `json.dumps` of the fields of a JSON object, comma-separated. -/
def json_dumps_fields : List (String × JVal) → String
  | [] => ""
  | [(k, v)] => "\"" ++ k ++ "\": " ++ json_dumps v
  | (k, v) :: f :: fs => "\"" ++ k ++ "\": " ++ json_dumps v ++ ", " ++ json_dumps_fields (f :: fs)

end

/-! ## `classifier_agent.py`: keyword scoring -/

/-- The keyword table of `ClassifierAgent._analyze_content_for_intent`, in the
dict's insertion order. -/
def intent_keywords : List (String × List String) :=
  [("invoice", ["invoice", "bill", "payment", "amount due"]),
   ("rfq", ["rfq", "request for quote", "quote request", "pricing"]),
   ("complaint", ["complaint", "issue", "problem", "concern"]),
   ("regulation", ["regulation", "compliance", "policy", "requirement"])]

/-- The per-intent keyword score:
`sum(1 for keyword in keywords if keyword in content)`. -/
def keyword_score (kws : List String) (content : String) : Nat :=
  (kws.filter (fun k => pyIn k content)).length

/-- The score table built by the dict comprehension in
`_analyze_content_for_intent`. -/
def intent_scores (content : String) : List (String × Nat) :=
  intent_keywords.map (fun p => (p.1, keyword_score p.2 content))

/-- Python `max(items, key=lambda x: x[1])` over a nonempty association
list: the first item with the maximal value (ties keep the earlier item). -/
def pyMaxBySnd (x : String × Nat) (xs : List (String × Nat)) : String × Nat :=
  xs.foldl (fun acc y => if y.2 > acc.2 then y else acc) x

/-- Embedding of `ClassifierAgent._analyze_content_for_intent`: keyword-count scoring
with Python `max` tie-breaking, `"unknown"` when every score is zero. -/
def analyze_content_for_intent (content : String) : String :=
  let scores := intent_scores content
  if scores.all (fun p => p.2 == 0) then "unknown"
  else
    match scores with
    | [] => "unknown"
    | x :: xs => (pyMaxBySnd x xs).1

/-! ## `email_agent.py`: first-match intent and urgency -/

/-- The regex table of `EmailAgent._analyze_intent`, in the dict's insertion
order.  Every pattern is an alternation of string literals. -/
def intent_patterns : List (String × String) :=
  [("invoice", "invoice|bill|payment|amount due"),
   ("rfq", "rfq|request for quote|quote request|pricing"),
   ("complaint", "complaint|issue|problem|concern"),
   ("regulation", "regulation|compliance|policy|requirement")]

/-- Split a pattern at its `|` alternation bars, over character lists. -/
def splitBarGo (acc : List Char) : List Char → List String
  | [] => [String.mk acc.reverse]
  | c :: cs => if c == Char.ofNat 124 then String.mk acc.reverse :: splitBarGo [] cs
               else splitBarGo (c :: acc) cs

/-- The alternatives of a regex alternation pattern. -/
def splitBarAlts (pat : String) : List String :=
  splitBarGo [] pat.data

/-- Model of `re.search` for a pattern that is an alternation of plain
string literals (the only shape appearing in the source): some
alternative occurs as a substring. -/
def regex_search_alts (pat content : String) : Bool :=
  (splitBarAlts pat).any (fun k => pyIn k content)

/-- Embedding of `EmailAgent._analyze_intent`: the first intent whose pattern matches
the lowercased `"{subject} {body}"`, else `"general"`. -/
def analyze_intent (subject body : String) : String :=
  let content := asciiLower (subject ++ " " ++ body)
  match intent_patterns.find? (fun p => regex_search_alts p.2 content) with
  | some p => p.1
  | none => "general"

/-- Embedding of `EmailAgent.URGENCY_KEYWORDS`, in the dict's insertion order. -/
def URGENCY_KEYWORDS : List (String × List String) :=
  [("high", ["urgent", "asap", "immediately", "critical", "emergency"]),
   ("medium", ["soon", "shortly", "prompt", "timely"]),
   ("low", ["when possible", "at your convenience", "no rush"])]

/-- Embedding of `EmailAgent._analyze_urgency`: the first level with a matching
keyword, else `"low"`. -/
def analyze_urgency (subject body : String) : String :=
  let content := asciiLower (subject ++ " " ++ body)
  match URGENCY_KEYWORDS.find? (fun p => p.2.any (fun k => pyIn k content)) with
  | some p => p.1
  | none => "low"

/-! ## `shared_memory.py`: the data model and the shared store -/

/-- The stored representation of a `datetime`: a `datetime` object is
identified with its numeric timestamp.  `iso t` is the ISO string
`t.isoformat()` (the encoding is lossless, so it is carried as the same
number with a different tag); `dt t` is the `datetime` object itself.
`datetime.fromisoformat` accepts only the string form and raises
`TypeError` on a `datetime`. -/
inductive TsField where
  | iso (t : Nat)
  | dt (t : Nat)
deriving DecidableEq

/-- The stored representation of the `extracted_values` dictionary:
`ser v` is the string `json.dumps(v)` of a JSON-serialisable dict (again
lossless, carried with a tag), `obj v` the dict itself.  `json.loads`
accepts only the string form and raises `TypeError` on a dict. -/
inductive EvField where
  | ser (v : JDict)
  | obj (v : JDict)

/-- Embedding of `MemoryEntry` from `shared_memory.py`.  `timestamp` is the datetime's
numeric value; `extracted_values` is a string-keyed dictionary. -/
structure MemoryEntry where
  source : String
  type : String
  timestamp : Nat
  extracted_values : JDict
  thread_id : String
  conversation_id : Option String

/-- One entry of `SharedMemory._in_memory_store`: the dict produced by
`store_entry` (`model_dump` with `timestamp` serialised to its ISO string
and `extracted_values` serialised with `json.dumps`), possibly later
converted in place by `get_entry` / `get_thread_history`. -/
structure StoredDict where
  source : String
  type : String
  timestamp : TsField
  extracted_values : EvField
  thread_id : String
  conversation_id : Option String

/-- Embedding of `SharedMemory._in_memory_store`: a Python dict in insertion order. -/
abbrev Store := List (String × StoredDict)

/-- Python dict assignment `store[k] = v`: replace in place when the key
exists (keys are unique, so at its first occurrence), append otherwise. -/
def storeInsert : Store → String → StoredDict → Store
  | [], k, v => [(k, v)]
  | p :: rest, k, v => if p.1 == k then (k, v) :: rest else p :: storeInsert rest k v

/-- Python `store.get(k)`. -/
def storeLookup (st : Store) (k : String) : Option StoredDict :=
  (st.find? (fun p => p.1 == k)).map (fun p => p.2)

/-- The entry id minted by `store_entry`:
`f"entry:{datetime.now().timestamp()}"` with `t` the clock reading. -/
def entryId (t : Nat) : String := "entry:" ++ toString t

/-- The dict stored by `store_entry`: `entry.model_dump()` with
`timestamp` replaced by its ISO string and `extracted_values` by its JSON
dump. -/
def dump_entry (e : MemoryEntry) : StoredDict :=
  { source := e.source
    type := e.type
    timestamp := .iso e.timestamp
    extracted_values := .ser e.extracted_values
    thread_id := e.thread_id
    conversation_id := e.conversation_id }

/-- Embedding of `SharedMemory.store_entry`.  `t` is the value `datetime.now()`
observed by the call; the state is passed explicitly, and the minted id
is returned alongside the new store. -/
def store_entry (st : Store) (t : Nat) (e : MemoryEntry) : String × Store :=
  (entryId t, storeInsert st (entryId t) (dump_entry e))

/-- Embedding of `SharedMemory.get_entry`.  The source converts the stored dict's
`timestamp` and `extracted_values` **in place** (the dict obtained from
`store.get` aliases the stored one), so the store after the call is
returned as well; `datetime.fromisoformat` on an already-converted
`datetime`, or `json.loads` on an already-converted dict, raises
`TypeError`. -/
def get_entry (st : Store) (entry_id : String) : Except PyExc (Option MemoryEntry × Store) :=
  match storeLookup st entry_id with
  | none => .ok (none, st)
  | some d =>
    match d.timestamp with
    | .dt _ => .error (.typeError "fromisoformat: argument must be str")
    | .iso t =>
      match d.extracted_values with
      | .obj _ => .error (.typeError "the JSON object must be str, bytes or bytearray")
      | .ser v =>
        let d2 : StoredDict := { d with timestamp := .dt t, extracted_values := .obj v }
        .ok (some ⟨d.source, d.type, t, v, d.thread_id, d.conversation_id⟩,
             st.map (fun p => if p.1 == entry_id then (entry_id, d2) else p))

/-- Stable insertion of an entry after all entries with a less-or-equal
timestamp: the building block of Python's stable `sorted(..., key=...)`. -/
def insertByTs (e : MemoryEntry) : List MemoryEntry → List MemoryEntry
  | [] => [e]
  | x :: xs => if e.timestamp < x.timestamp then e :: x :: xs else x :: insertByTs e xs

/-- Python `sorted(entries, key=lambda x: x.timestamp)` (stable,
ascending). -/
def sortByTs (l : List MemoryEntry) : List MemoryEntry :=
  l.foldl (fun acc e => insertByTs e acc) []

/-- The iteration of `get_thread_history` over the store's values,
converting every matching dict in place and collecting the entries. -/
def thread_scan (tid : String) : List (String × StoredDict) →
    Except PyExc (List MemoryEntry × List (String × StoredDict))
  | [] => .ok ([], [])
  | (k, d) :: rest =>
    if d.thread_id == tid then
      match d.timestamp with
      | .dt _ => .error (.typeError "fromisoformat: argument must be str")
      | .iso t =>
        match d.extracted_values with
        | .obj _ => .error (.typeError "the JSON object must be str, bytes or bytearray")
        | .ser v =>
          let d2 : StoredDict := { d with timestamp := .dt t, extracted_values := .obj v }
          match thread_scan tid rest with
          | .error e => .error e
          | .ok (es, rest2) =>
            .ok (⟨d.source, d.type, t, v, d.thread_id, d.conversation_id⟩ :: es, (k, d2) :: rest2)
    else
      match thread_scan tid rest with
      | .error e => .error e
      | .ok (es, rest2) => .ok (es, (k, d) :: rest2)

/-- Embedding of `SharedMemory.get_thread_history`: scans all stored dicts, converts
the matching ones in place, and returns them sorted by timestamp together
with the store as left behind. -/
def get_thread_history (st : Store) (tid : String) : Except PyExc (List MemoryEntry × Store) :=
  match thread_scan tid st with
  | .error e => .error e
  | .ok (es, st2) => .ok (sortByTs es, st2)

/-! ## The library oracle and the agents' state -/

/-- Oracle for the Python library functions the repository calls but does
not define: JSON parsing, the lenient email header parser, PDF reading,
UTF-8 decoding, the `re` regular-expression searches of
`EmailAgent._extract_sender` / `_extract_entities`, and RFC-2822 date
parsing.  Theorems quantify over every oracle. -/
structure Libs where
  /-- `json.loads` on a string: `none` models `JSONDecodeError`. -/
  jsonParse : String → Option JVal
  /-- `Parser().parsestr(content).get(header)`: `none` when the header is
  absent (the lenient parser itself never raises). -/
  emailHeader : String → String → Option String
  /-- `email.get_payload()` rendered as a string (the f-string rendering
  used by the classifier when the payload is not a plain string). -/
  emailPayloadStr : String → String
  /-- `PdfReader` on bytes: the pages' `extract_text()` results, `none`
  when the reader raises. -/
  pdfRead : Bytes → Option (List String)
  /-- `bytes.decode("utf-8")`: `none` models `UnicodeDecodeError`. -/
  decodeUtf8 : Bytes → Option String
  /-- `email.is_multipart()`. -/
  isMultipart : String → Bool
  /-- The decoded payload of the first `text/plain` part, when one
  exists. -/
  firstTextPlainDecoded : String → Option String
  /-- The sender regex of `_extract_sender`: the two captured groups when
  the pattern matches. -/
  parseSender : String → Option (String × String)
  /-- `email.utils.parsedate_to_datetime`: `none` when it raises. -/
  parsedate : String → Option Nat
  /-- `re.findall` with the date pattern of `_extract_entities`. -/
  findall_dates : String → List String
  /-- `re.findall` with the amount pattern. -/
  findall_amounts : String → List String
  /-- `re.findall` with the reference pattern. -/
  findall_refs : String → List String
  /-- `re.findall` with the email-address pattern. -/
  findall_emails : String → List String
  /-- `re.findall` with the phone pattern. -/
  findall_phones : String → List String

/-- A Python object arriving at an agent: a `str`, a `bytes`/`bytearray`,
a `dict`, or anything else. -/
inductive PyObj where
  | pstr (s : String)
  | pbytes (b : Bytes)
  | pdict (d : JDict)
  | pother

/-- The process-wide mutable state threaded through the agents: the
shared store, the current clock reading (`datetime.now()`), and a counter
minting fresh `uuid.uuid4()` strings. -/
structure SysState where
  store : Store
  time : Nat
  uuidCtr : Nat

/-- Draw a fresh `str(uuid.uuid4())`. -/
def fresh_uuid (st : SysState) : String × SysState :=
  ("uuid-" ++ toString st.uuidCtr, { st with uuidCtr := st.uuidCtr + 1 })

/-- Pydantic validation of a `str` field of `MemoryEntry`. -/
def asStr : JVal → Except PyExc String
  | .str s => .ok s
  | _ => .error (.validationError "Input should be a valid string")

/-- Pydantic validation of the `Optional[str]` field `conversation_id`. -/
def asOptStr : Option JVal → Except PyExc (Option String)
  | none => .ok none
  | some .null => .ok none
  | some (.str s) => .ok (some s)
  | some _ => .error (.validationError "Input should be a valid string")

/-- Embedding of `BaseAgent.log_processing` followed by `create_memory_entry`:
builds the `extracted_values` dict, validates the `MemoryEntry` fields
(pydantic), and stores the entry.  `str(uuid.uuid4())` is evaluated
unconditionally (it is the eagerly-evaluated default argument of
`metadata.get`). -/
def log_processing (st : SysState) (agent_id : String) (metadata : JDict) (results : JDict) :
    Except PyExc (String × SysState) :=
  let (uid, st1) := fresh_uuid st
  let threadV := (jdictGet metadata "thread_id").getD (.str uid)
  let convV := jdictGet metadata "conversation_id"
  let sourceV := (jdictGet metadata "source").getD (.str "unknown")
  let typeV := (jdictGet metadata "type").getD (.str "unknown")
  let ev : JDict :=
    [("input_metadata", .obj metadata),
     ("processing_results", .obj results),
     ("agent_id", .str agent_id)]
  match asStr sourceV with
  | .error e => .error e
  | .ok source =>
    match asStr typeV with
    | .error e => .error e
    | .ok ty =>
      match asStr threadV with
      | .error e => .error e
      | .ok thread =>
        match asOptStr convV with
        | .error e => .error e
        | .ok conv =>
          let e : MemoryEntry := ⟨source, ty, st1.time, ev, thread, conv⟩
          let (eid, store2) := store_entry st1.store st1.time e
          .ok (eid, { st1 with store := store2 })

/-! ## `classifier_agent.py`: format and intent detection, confidence -/

def SUPPORTED_FORMATS : List String := ["pdf", "json", "email"]

def SUPPORTED_INTENTS : List String := ["invoice", "rfq", "complaint", "regulation"]

/-- Embedding of `ClassifierAgent._is_email_format`:
`bool(email.get("from") and email.get("subject"))` — both headers must be
present **and** truthy (a present but empty header is falsy). -/
def is_email_format (L : Libs) (content : String) : Bool :=
  (match L.emailHeader content "from" with
   | some s => s != ""
   | none => false) &&
  (match L.emailHeader content "subject" with
   | some s => s != ""
   | none => false)

/-- Embedding of `ClassifierAgent._detect_format`: trial JSON parse for strings, then
email headers; PDF parse for bytes; `ValueError("Unsupported format")` for
everything else (`bytes` and `bytearray` are merged into `PyObj.pbytes`). -/
def detect_format (L : Libs) : PyObj → Except PyExc String
  | .pstr s =>
    match L.jsonParse s with
    | some _ => .ok "json"
    | none =>
      if is_email_format L s then .ok "email"
      else .error (.valueError "Unsupported format")
  | .pbytes b =>
    match L.pdfRead b with
    | some _ => .ok "pdf"
    | none => .error (.valueError "Unsupported format")
  | .pdict _ => .error (.valueError "Unsupported format")
  | .pother => .error (.valueError "Unsupported format")

/-- Embedding of `ClassifierAgent._detect_json_intent`: a top-level `"type"` entry wins
(`data["type"].lower()`, raising on a non-string); otherwise keyword
analysis of `json.dumps(data).lower()`.  The `except JSONDecodeError`
branch re-raises as `ValueError("Invalid JSON content")`. -/
def detect_json_intent (L : Libs) (content : String) : Except PyExc String :=
  match L.jsonParse content with
  | none => .error (.valueError "Invalid JSON content")
  | some data =>
    match pyContains data "type" with
    | .error e => .error e
    | .ok true =>
      match pyGetItem data "type" with
      | .error e => .error e
      | .ok v => pyLower v
    | .ok false => .ok (analyze_content_for_intent (asciiLower (json_dumps data)))

/-- Embedding of `ClassifierAgent._detect_email_intent`: keyword analysis of the
lowercased `"{subject} {body}"`. -/
def detect_email_intent (L : Libs) (content : String) : String :=
  let subject := asciiLower ((L.emailHeader content "subject").getD "")
  let body := L.emailPayloadStr content
  analyze_content_for_intent (asciiLower (subject ++ " " ++ body))

/-- Embedding of `ClassifierAgent._detect_pdf_intent`: keyword analysis of the
concatenated page texts; any reader failure becomes
`ValueError("Error processing PDF: ...")`. -/
def detect_pdf_intent (L : Libs) (b : Bytes) : Except PyExc String :=
  match L.pdfRead b with
  | some pages => .ok (analyze_content_for_intent (asciiLower (String.join pages)))
  | none => .error (.valueError "Error processing PDF: reader failed")

/-- Embedding of `ClassifierAgent._detect_intent`: dispatch on the detected format.
(The mismatched-content branches are unreachable from `process`, which
derives the format from the same content.) -/
def detect_intent (L : Libs) (content : PyObj) (fmt : String) : Except PyExc String :=
  if fmt == "json" then
    match content with
    | .pstr s => detect_json_intent L s
    | _ => .error (.typeError "expected str content")
  else if fmt == "email" then
    match content with
    | .pstr s => .ok (detect_email_intent L s)
    | _ => .error (.typeError "expected str content")
  else if fmt == "pdf" then
    match content with
    | .pbytes b => detect_pdf_intent L b
    | _ => .error (.typeError "expected bytes content")
  else .error (.valueError ("Unsupported format: " ++ fmt))

/-- Embedding of `ClassifierAgent._calculate_confidence`: the fixed two-value average,
in exact rational arithmetic. -/
def calculate_confidence (fmt intent : String) : ℚ :=
  let base : ℚ := if SUPPORTED_FORMATS.contains fmt then 8/10 else 5/10
  let intent_conf : ℚ := if SUPPORTED_INTENTS.contains intent then 9/10 else 6/10
  (base + intent_conf) / 2

/-- The classification result dictionary of `ClassifierAgent.process`. -/
structure ClsResult where
  format : String
  intent : String
  confidence : ℚ

def classifier_agent_id : String := "classifier-agent"

def json_agent_id : String := "json-agent"

def email_agent_id : String := "email-agent"

/-- Embedding of `ClassifierAgent.process`: detect format and intent, compute the
confidence, log the results to shared memory, return the results. -/
def classifier_process (L : Libs) (st : SysState) (content : PyObj) (metadata : JDict) :
    Except PyExc (ClsResult × SysState) :=
  match detect_format L content with
  | .error e => .error e
  | .ok fmt =>
    match detect_intent L content fmt with
    | .error e => .error e
    | .ok intent =>
      let conf := calculate_confidence fmt intent
      let results : JDict :=
        [("format", .str fmt), ("intent", .str intent), ("confidence", .num conf)]
      match log_processing st classifier_agent_id metadata results with
      | .error e => .error e
      | .ok (_, st2) => .ok (⟨fmt, intent, conf⟩, st2)

/-! ## `json_agent.py` -/

/-- The keys of `JSONAgent.SCHEMAS`, in insertion order. -/
def SCHEMAS_keys : List String := ["invoice", "rfq", "complaint", "regulation"]

/-- The result dictionary of `JSONAgent._validate_schema`. -/
structure VRes where
  valid : Bool
  errors : List String
deriving DecidableEq

/-- Pydantic validation of `schema_class(**data)` for any of the four
schema classes.  All four subclasses declare the same field types —
`type : str` (required, inherited from `JSONSchema`) and
`data : Dict[str, Any]` (optional, it has a default) — so they validate
identically; extra keys are ignored.  A non-dict `data` argument makes
the `**`-splat itself raise `TypeError` (which `_validate_schema` does
not catch).  The `.ok` result is the list of validation error strings,
empty when validation succeeds. -/
def schema_call (data : JVal) : Except PyExc (List String) :=
  match data with
  | .obj fs =>
    .ok ((match jdictGet fs "type" with
          | none => ["type: Field required"]
          | some (.str _) => []
          | some _ => ["type: Input should be a valid string"]) ++
         (match jdictGet fs "data" with
          | none => []
          | some (.obj _) => []
          | some _ => ["data: Input should be a valid dictionary"]))
  | _ => .error (.typeError "argument after ** must be a mapping")

/-- Python `str(intent)` for the f-string `f"Unsupported intent: {intent}"`. -/
def pyStrOfJVal : JVal → String
  | .str s => s
  | v => json_dumps v

/-- Embedding of `JSONAgent._validate_schema`: unsupported intents short-circuit with
an error message; supported intents run pydantic validation, catching
only `ValidationError`. -/
def validate_schema (data : JVal) (intent : JVal) : Except PyExc VRes :=
  match intent with
  | .str s =>
    if SCHEMAS_keys.contains s then
      match schema_call data with
      | .error e => .error e
      | .ok [] => .ok ⟨true, []⟩
      | .ok (e0 :: es) => .ok ⟨false, e0 :: es⟩
    else .ok ⟨false, ["Unsupported intent: " ++ s]⟩
  | v => .ok ⟨false, ["Unsupported intent: " ++ pyStrOfJVal v]⟩

/-- Embedding of `JSONAgent._format_data`: the base fields plus the per-intent field
mapping, each read with `data.get("data", {}).get(...)`. -/
def format_data (data : JVal) (intent : JVal) : Except PyExc JDict :=
  match pyDictGetD data "timestamp" .null with
  | .error e => .error e
  | .ok ts =>
    match pyDictGetD data "source" .null with
    | .error e => .error e
    | .ok src =>
      let base : JDict := [("type", intent), ("timestamp", ts), ("source", src)]
      if jIsStrEq intent "invoice" then
        match pyDictGetD data "data" (.obj []) with
        | .error e => .error e
        | .ok dd =>
          match pyDictGetD dd "invoice_number" .null, pyDictGetD dd "amount" .null,
                pyDictGetD dd "date" .null, pyDictGetD dd "items" (.arr []),
                pyDictGetD dd "customer" (.obj []) with
          | .ok n, .ok a, .ok dt, .ok it, .ok cu =>
            .ok (base ++ [("invoice_number", n), ("amount", a), ("date", dt),
                          ("items", it), ("customer", cu)])
          | .error e, _, _, _, _ => .error e
          | _, .error e, _, _, _ => .error e
          | _, _, .error e, _, _ => .error e
          | _, _, _, .error e, _ => .error e
          | _, _, _, _, .error e => .error e
      else if jIsStrEq intent "rfq" then
        match pyDictGetD data "data" (.obj []) with
        | .error e => .error e
        | .ok dd =>
          match pyDictGetD dd "rfq_number" .null, pyDictGetD dd "requested_items" (.arr []),
                pyDictGetD dd "deadline" .null, pyDictGetD dd "contact" (.obj []) with
          | .ok n, .ok ri, .ok dl, .ok ct =>
            .ok (base ++ [("rfq_number", n), ("requested_items", ri),
                          ("deadline", dl), ("contact", ct)])
          | .error e, _, _, _ => .error e
          | _, .error e, _, _ => .error e
          | _, _, .error e, _ => .error e
          | _, _, _, .error e => .error e
      else if jIsStrEq intent "complaint" then
        match pyDictGetD data "data" (.obj []) with
        | .error e => .error e
        | .ok dd =>
          match pyDictGetD dd "complaint_id" .null, pyDictGetD dd "description" .null,
                pyDictGetD dd "severity" .null, pyDictGetD dd "contact" (.obj []) with
          | .ok i, .ok de, .ok se, .ok ct =>
            .ok (base ++ [("complaint_id", i), ("description", de),
                          ("severity", se), ("contact", ct)])
          | .error e, _, _, _ => .error e
          | _, .error e, _, _ => .error e
          | _, _, .error e, _ => .error e
          | _, _, _, .error e => .error e
      else if jIsStrEq intent "regulation" then
        match pyDictGetD data "data" (.obj []) with
        | .error e => .error e
        | .ok dd =>
          match pyDictGetD dd "regulation_id" .null, pyDictGetD dd "title" .null,
                pyDictGetD dd "requirements" (.arr []), pyDictGetD dd "effective_date" .null with
          | .ok i, .ok ti, .ok rq, .ok ed =>
            .ok (base ++ [("regulation_id", i), ("title", ti),
                          ("requirements", rq), ("effective_date", ed)])
          | .error e, _, _, _ => .error e
          | _, .error e, _, _ => .error e
          | _, _, .error e, _ => .error e
          | _, _, _, .error e => .error e
      else .ok base

/-- Embedding of `JSONAgent._check_anomalies` for the invoice amount:
`not data.get("amount") or data.get("amount") <= 0`, with Python's
short-circuit `or` (the comparison only runs on truthy values, where it
may raise `TypeError`). -/
def invoice_amount_bad (amt : JVal) : Except PyExc Bool :=
  if !jTruthy amt then .ok true
  else
    match pyLeZero amt with
    | .error e => .error e
    | .ok b => .ok b

/-- Embedding of `JSONAgent._check_anomalies`. -/
def check_anomalies (d : JDict) (intent : JVal) : Except PyExc (List String) :=
  if jIsStrEq intent "invoice" then
    let a1 := if !jTruthy (jGetD d "invoice_number") then ["Missing invoice number"] else []
    match invoice_amount_bad (jGetD d "amount") with
    | .error e => .error e
    | .ok bad =>
      let a2 := if bad then ["Invalid or missing amount"] else []
      let a3 := if !jTruthy (jGetD d "items") then ["No items in invoice"] else []
      .ok (a1 ++ a2 ++ a3)
  else if jIsStrEq intent "rfq" then
    .ok ((if !jTruthy (jGetD d "rfq_number") then ["Missing RFQ number"] else []) ++
         (if !jTruthy (jGetD d "requested_items") then ["No requested items"] else []) ++
         (if !jTruthy (jGetD d "deadline") then ["Missing deadline"] else []))
  else if jIsStrEq intent "complaint" then
    .ok ((if !jTruthy (jGetD d "complaint_id") then ["Missing complaint ID"] else []) ++
         (if !jTruthy (jGetD d "description") then ["Missing complaint description"] else []) ++
         (if !jTruthy (jGetD d "severity") then ["Missing severity level"] else []))
  else if jIsStrEq intent "regulation" then
    .ok ((if !jTruthy (jGetD d "regulation_id") then ["Missing regulation ID"] else []) ++
         (if !jTruthy (jGetD d "requirements") then ["No requirements specified"] else []) ++
         (if !jTruthy (jGetD d "effective_date") then ["Missing effective date"] else []))
  else .ok []

/-- The body of `JSONAgent.process` before exception wrapping. -/
def json_process_body (L : Libs) (st : SysState) (content : PyObj) (metadata : JDict) :
    Except PyExc (JDict × SysState) :=
  match (match content with
         | .pstr s =>
           (match L.jsonParse s with
            | some v => .ok v
            | none => .error (.jsonDecodeError "Expecting value"))
         | .pdict d => .ok (.obj d)
         | _ => .error (.valueError "Invalid JSON content") : Except PyExc JVal) with
  | .error e => .error e
  | .ok data =>
    let mdIntent := jdictGet metadata "intent"
    match (match mdIntent with
           | some v => if jTruthy v then .ok v else pyDictGetD data "type" (.str "unknown")
           | none => pyDictGetD data "type" (.str "unknown") : Except PyExc JVal) with
    | .error e => .error e
    | .ok intent =>
      match validate_schema data intent with
      | .error e => .error e
      | .ok vres =>
        match format_data data intent with
        | .error e => .error e
        | .ok formatted =>
          match check_anomalies formatted intent with
          | .error e => .error e
          | .ok anomalies =>
            let results : JDict :=
              [("valid", .bool vres.valid),
               ("formatted_data", .obj formatted),
               ("anomalies", .arr (anomalies.map .str)),
               ("validation_errors", .arr (vres.errors.map .str))]
            match log_processing st json_agent_id metadata results with
            | .error e => .error e
            | .ok (_, st2) => .ok (results, st2)

/-- Embedding of `JSONAgent.process`: the body wrapped by
`except json.JSONDecodeError` / `except Exception`, each re-raising a
`ValueError` with a prefixed message. -/
def json_agent_process (L : Libs) (st : SysState) (content : PyObj) (metadata : JDict) :
    Except PyExc (JDict × SysState) :=
  match json_process_body L st content metadata with
  | .ok v => .ok v
  | .error (.jsonDecodeError m) => .error (.valueError ("Invalid JSON format: " ++ m))
  | .error e => .error (.valueError ("Error processing JSON: " ++ pyStr e))

/-! ## `email_agent.py` -/

/-- Embedding of `EmailAgent._extract_sender`: the regex groups when it matches,
otherwise an empty name with the stripped raw header. -/
def extract_sender (L : Libs) (content : String) : String × String :=
  let from_header := (L.emailHeader content "from").getD ""
  match L.parseSender from_header with
  | some (name, addr) => (asciiTrim name, asciiTrim addr)
  | none => ("", asciiTrim from_header)

/-- Embedding of `EmailAgent._extract_date`: parse the `Date` header when present and
truthy, fall back to `datetime.now()` (the current clock). -/
def extract_date (L : Libs) (st : SysState) (content : String) : Nat :=
  match L.emailHeader content "date" with
  | some ds =>
    if ds != "" then
      match L.parsedate ds with
      | some d => d
      | none => st.time
    else st.time
  | none => st.time

/-- Embedding of `EmailAgent._extract_body`: the decoded first `text/plain` part of a
multipart message when one exists, otherwise `get_payload()`. -/
def extract_body (L : Libs) (content : String) : String :=
  if L.isMultipart content then
    match L.firstTextPlainDecoded content with
    | some s => s
    | none => L.emailPayloadStr content
  else L.emailPayloadStr content

/-- Embedding of `EmailAgent._extract_entities`: the four regex scans. -/
def extract_entities (L : Libs) (body : String) : JDict :=
  [("dates", .arr ((L.findall_dates body).map .str)),
   ("amounts", .arr ((L.findall_amounts body).map .str)),
   ("references", .arr ((L.findall_refs body).map .str)),
   ("contacts", .arr ((L.findall_emails body ++ L.findall_phones body).map .str))]

/-- The ISO rendering of a modelled datetime. -/
def isoformat (t : Nat) : String := toString t

/-- Embedding of `EmailAgent._format_for_crm`. -/
def format_for_crm (st : SysState) (agent_id senderName senderEmail subject : String)
    (date : Nat) (body intent urgency : String) (entities : JDict) : JDict :=
  [("contact", .obj [("name", .str senderName), ("email", .str senderEmail)]),
   ("communication", .obj [("subject", .str subject), ("date", .str (isoformat date)),
                           ("body", .str body)]),
   ("classification", .obj [("intent", .str intent), ("urgency", .str urgency)]),
   ("entities", .obj entities),
   ("metadata", .obj [("processed_at", .str (isoformat st.time)),
                      ("agent_id", .str agent_id)])]

/-- The body of `EmailAgent.process` before exception wrapping. -/
def email_process_body (L : Libs) (st : SysState) (content : PyObj) (metadata : JDict) :
    Except PyExc (JDict × SysState) :=
  match content with
  | .pstr s =>
    let (senderName, senderEmail) := extract_sender L s
    let subject := (L.emailHeader s "subject").getD ""
    let date := extract_date L st s
    let body := extract_body L s
    let intent := analyze_intent subject body
    let urgency := analyze_urgency subject body
    let entities := extract_entities L body
    let crm := format_for_crm st email_agent_id senderName senderEmail subject
                 date body intent urgency entities
    let results : JDict :=
      [("crm_data", .obj crm),
       ("analysis", .obj [("intent", .str intent), ("urgency", .str urgency),
                          ("entities", .obj entities)])]
    match log_processing st email_agent_id metadata results with
    | .error e => .error e
    | .ok (_, st2) => .ok (results, st2)
  | _ => .error (.valueError "Invalid email content")

/-- Embedding of `EmailAgent.process`: the body wrapped by `except Exception`,
re-raising `ValueError("Error processing email: ...")`. -/
def email_agent_process (L : Libs) (st : SysState) (content : PyObj) (metadata : JDict) :
    Except PyExc (JDict × SysState) :=
  match email_process_body L st content metadata with
  | .ok v => .ok v
  | .error e => .error (.valueError ("Error processing email: " ++ pyStr e))

/-! ## `main.py`: the endpoint handlers -/

/-- The HTTP error surfaced by a handler (the `HTTPException` status code
and string detail). -/
structure HTTPError where
  status : Nat
  detail : String
deriving DecidableEq

/-- The response dictionary
`{"classification": ..., "processing_result": ...}`. -/
def mkResponse (cls : ClsResult) (res : JVal) : JDict :=
  [("classification", .obj [("format", .str cls.format), ("intent", .str cls.intent),
                            ("confidence", .num cls.confidence)]),
   ("processing_result", res)]

/-- The `try:` body of the `/process` handler. -/
def process_input_body (L : Libs) (st : SysState) (content : String) (md : Option JDict) :
    Except PyExc (JDict × SysState) :=
  let metadata := match md with
                  | none => []
                  | some m => m
  match classifier_process L st (.pstr content) metadata with
  | .error e => .error e
  | .ok (cls, st1) =>
    if cls.format == "json" then
      let md2 := jdictSet metadata "intent" (.str cls.intent)
      match json_agent_process L st1 (.pstr content) md2 with
      | .error e => .error e
      | .ok (res, st2) => .ok (mkResponse cls (.obj res), st2)
    else if cls.format == "email" then
      let md2 := jdictSet metadata "intent" (.str cls.intent)
      match email_agent_process L st1 (.pstr content) md2 with
      | .error e => .error e
      | .ok (res, st2) => .ok (mkResponse cls (.obj res), st2)
    else
      .error (.httpExc 400 ("Unsupported format: " ++ cls.format))

/-- The `/process` endpoint handler: any exception escaping the body —
including the `HTTPException(400)` raised in the unsupported-format
branch, which the `except Exception` clause also catches — is re-raised
as `HTTPException(500, str(e))`. -/
def process_input (L : Libs) (st : SysState) (content : String) (md : Option JDict) :
    Except HTTPError (JDict × SysState) :=
  match process_input_body L st content md with
  | .ok v => .ok v
  | .error e => .error ⟨500, pyStr e⟩

/-- The `try:` body of the `/process/file` handler: decode as UTF-8 and
handle text, or fall back to the binary (PDF) path on
`UnicodeDecodeError`. -/
def process_file_body (L : Libs) (st : SysState) (fileBytes : Bytes) :
    Except PyExc (JDict × SysState) :=
  match L.decodeUtf8 fileBytes with
  | some content_str =>
    match classifier_process L st (.pstr content_str) [] with
    | .error e => .error e
    | .ok (cls, st1) =>
      if cls.format == "json" then
        match json_agent_process L st1 (.pstr content_str) [("intent", .str cls.intent)] with
        | .error e => .error e
        | .ok (res, st2) => .ok (mkResponse cls (.obj res), st2)
      else if cls.format == "email" then
        match email_agent_process L st1 (.pstr content_str) [("intent", .str cls.intent)] with
        | .error e => .error e
        | .ok (res, st2) => .ok (mkResponse cls (.obj res), st2)
      else
        .error (.httpExc 400 ("Unsupported format: " ++ cls.format))
  | none =>
    match classifier_process L st (.pbytes fileBytes) [] with
    | .error e => .error e
    | .ok (cls, st1) =>
      if cls.format == "pdf" then
        if cls.intent == "invoice" then
          match json_agent_process L st1 (.pbytes fileBytes) [("intent", .str cls.intent)] with
          | .error e => .error e
          | .ok (res, st2) => .ok (mkResponse cls (.obj res), st2)
        else
          .ok (mkResponse cls (.obj [("message", .str "PDF processed, but only invoice intent is supported for PDF in this demo.")]), st1)
      else
        .error (.httpExc 400 ("Unsupported binary format: " ++ cls.format))

/-- The `/process/file` endpoint handler with its
exception-to-`HTTPException(500, str(e))` wrapping. -/
def process_file (L : Libs) (st : SysState) (fileBytes : Bytes) :
    Except HTTPError (JDict × SysState) :=
  match process_file_body L st fileBytes with
  | .ok v => .ok v
  | .error e => .error ⟨500, pyStr e⟩

/-! ## Fixtures: concrete oracles and states for closed evaluations -/

/-- The trivial oracle: every library call fails or returns nothing. -/
def L0 : Libs where
  jsonParse := fun _ => none
  emailHeader := fun _ _ => none
  emailPayloadStr := fun _ => ""
  pdfRead := fun _ => none
  decodeUtf8 := fun _ => none
  isMultipart := fun _ => false
  firstTextPlainDecoded := fun _ => none
  parseSender := fun _ => none
  parsedate := fun _ => none
  findall_dates := fun _ => []
  findall_amounts := fun _ => []
  findall_refs := fun _ => []
  findall_emails := fun _ => []
  findall_phones := fun _ => []

/-- The initial system state: empty store, clock at 0. -/
def st0 : SysState := ⟨[], 0, 0⟩

/-- The concrete document `{"type": "Banana"}`. -/
def jsonBananaStr : String := "\x7b\"type\": \"Banana\"\x7d"

/-- The concrete document `{}`. -/
def jsonEmptyStr : String := "\x7b\x7d"

/-- An oracle whose `json.loads` knows the two concrete documents above
(matching what Python's parser returns on them). -/
def L1 : Libs :=
  { L0 with
    jsonParse := fun s =>
      if s == jsonBananaStr then some (.obj [("type", .str "Banana")])
      else if s == jsonEmptyStr then some (.obj [])
      else none }

/-- A concrete memory entry used in closed evaluations. -/
def e0 : MemoryEntry := ⟨"test", "doc", 5, [("k", .str "v")], "thread-1", none⟩

/-! ## Association-list store lemmas -/

theorem storeLookup_insert_self (st : Store) (k : String) (v : StoredDict) :
    storeLookup (storeInsert st k v) k = some v := by
  induction st with
  | nil => simp [storeInsert, storeLookup, List.find?]
  | cons p rest ih =>
    by_cases h : p.1 = k
    · simp [storeInsert, storeLookup, h, List.find?]
    · simp only [storeInsert, storeLookup, List.find?] at ih ⊢
      have hb : (p.1 == k) = false := by simp [h]
      simp [hb, ih]

theorem storeLookup_insert_ne (st : Store) (k k' : String) (v : StoredDict)
    (h : k' ≠ k) : storeLookup (storeInsert st k v) k' = storeLookup st k' := by
  have hkk' : (k == k') = false := beq_eq_false_iff_ne.mpr (fun hh => h hh.symm)
  induction st with
  | nil => simp [storeInsert, storeLookup, List.find?, hkk']
  | cons p rest ih =>
    by_cases hp : p.1 = k
    · have hb : (p.1 == k) = true := beq_iff_eq.mpr hp
      have hb'' : (p.1 == k') = false := by rw [hp]; exact hkk'
      simp [storeInsert, storeLookup, hb, hkk', List.find?, hb'']
    · have hb : (p.1 == k) = false := beq_eq_false_iff_ne.mpr hp
      by_cases hq : p.1 = k'
      · have hq' : (p.1 == k') = true := beq_iff_eq.mpr hq
        simp [storeInsert, storeLookup, hb, hq', List.find?]
      · have hq' : (p.1 == k') = false := beq_eq_false_iff_ne.mpr hq
        simp only [storeInsert, storeLookup, List.find?] at ih ⊢
        simp [hb, hq', ih]

theorem any_key_storeInsert (st : Store) (k : String) (v : StoredDict) :
    (storeInsert st k v).any (fun p => p.1 == k) = true := by
  induction st with
  | nil => simp [storeInsert]
  | cons p rest ih =>
    by_cases h : p.1 = k
    · simp [storeInsert, h]
    · have hb : (p.1 == k) = false := by simp [h]
      simp [storeInsert, hb, ih]

theorem length_storeInsert_of_any (st : Store) (k : String) (v : StoredDict)
    (h : st.any (fun p => p.1 == k) = true) :
    (storeInsert st k v).length = st.length := by
  induction st with
  | nil => simp at h
  | cons p rest ih =>
    by_cases hp : p.1 = k
    · simp [storeInsert, hp]
    · have hb : (p.1 == k) = false := by simp [hp]
      simp only [List.any_cons, hb, Bool.false_or] at h
      simp [storeInsert, hb, ih h]

/-- A store built only through `store_entry`, from the given sequence of
(clock reading, entry) calls. -/
def buildStore (ops : List (Nat × MemoryEntry)) : Store :=
  ops.foldl (fun s p => (store_entry s p.1 p.2).2) []

theorem storeLookup_foldl_none (ops : List (Nat × MemoryEntry)) (s : Store) (id : String)
    (h0 : storeLookup s id = none) (h : id ∉ ops.map (fun p => entryId p.1)) :
    storeLookup (ops.foldl (fun s p => (store_entry s p.1 p.2).2) s) id = none := by
  induction ops generalizing s with
  | nil => simpa using h0
  | cons p rest ih =>
    simp only [List.map_cons, List.mem_cons] at h
    push_neg at h
    simp only [List.foldl_cons]
    have h1 : storeLookup (store_entry s p.1 p.2).2 id = none := by
      show storeLookup (storeInsert s (entryId p.1) (dump_entry p.2)) id = none
      rw [storeLookup_insert_ne s (entryId p.1) id (dump_entry p.2) h.1]
      exact h0
    exact ih _ h1 h.2

/-- Claim **C9** (confirmed): `store_entry` mints the id
`f"entry:{datetime.now().timestamp()}"`, so two calls observing the same
clock value `t` return the same id, and the second call silently
overwrites the first entry: after both calls the id maps to the second
entry's dict and the store has not grown. -/
theorem C9_entry_id_collision_overwrites (st : Store) (t : Nat) (e1 e2 : MemoryEntry) :
    (store_entry st t e1).1 = (store_entry (store_entry st t e1).2 t e2).1 ∧
    (store_entry st t e1).1 = "entry:" ++ toString t ∧
    storeLookup (store_entry (store_entry st t e1).2 t e2).2 ((store_entry st t e1).1) =
      some (dump_entry e2) ∧
    ((store_entry (store_entry st t e1).2 t e2).2).length = ((store_entry st t e1).2).length := by
  refine ⟨rfl, rfl, ?_, ?_⟩
  · exact storeLookup_insert_self _ _ _
  · exact length_storeInsert_of_any _ _ _ (any_key_storeInsert st (entryId t) (dump_entry e1))

/-- Claim **C1** (code bug): the claim says `get_entry` and
`get_thread_history` leave the shared store unchanged, so repeated calls
return the same result.  The code converts the stored dict's `timestamp`
and `extracted_values` **in place** (the dict returned by `store.get`
aliases the stored one), so after storing `e0` at clock 5 the first
`get_entry` succeeds but flips the stored timestamp from its ISO string
to a `datetime`, and the second `get_entry` (and likewise a second
`get_thread_history`) raises `TypeError` inside
`datetime.fromisoformat`. -/
theorem C1_get_entry_mutates_store :
    (store_entry [] 5 e0).1 = "entry:5" ∧
    (storeLookup (store_entry [] 5 e0).2 "entry:5").map (fun d => d.timestamp) =
      some (.iso 5) ∧
    get_entry (store_entry [] 5 e0).2 "entry:5" =
      .ok (some e0,
        [("entry:5", ⟨"test", "doc", .dt 5, .obj [("k", .str "v")], "thread-1", none⟩)]) ∧
    (storeLookup
        [("entry:5", (⟨"test", "doc", .dt 5, .obj [("k", .str "v")], "thread-1", none⟩ : StoredDict))]
        "entry:5").map (fun d => d.timestamp) = some (.dt 5) ∧
    (TsField.iso 5 ≠ TsField.dt 5) ∧
    get_entry
        [("entry:5", (⟨"test", "doc", .dt 5, .obj [("k", .str "v")], "thread-1", none⟩ : StoredDict))]
        "entry:5" = .error (.typeError "fromisoformat: argument must be str") ∧
    get_thread_history (store_entry [] 5 e0).2 "thread-1" =
      .ok ([e0],
        [("entry:5", ⟨"test", "doc", .dt 5, .obj [("k", .str "v")], "thread-1", none⟩)]) ∧
    get_thread_history
        [("entry:5", (⟨"test", "doc", .dt 5, .obj [("k", .str "v")], "thread-1", none⟩ : StoredDict))]
        "thread-1" = .error (.typeError "fromisoformat: argument must be str") :=
  ⟨rfl, rfl, rfl, rfl, by decide, rfl, rfl, rfl⟩

theorem get_entry_insert_fresh (s : Store) (t : Nat) (e : MemoryEntry) :
    get_entry (storeInsert s (entryId t) (dump_entry e)) (entryId t) =
      .ok (some e, (storeInsert s (entryId t) (dump_entry e)).map
        (fun p => if p.1 == entryId t then (entryId t,
          { source := e.source, type := e.type, timestamp := .dt e.timestamp,
            extracted_values := .obj e.extracted_values, thread_id := e.thread_id,
            conversation_id := e.conversation_id }) else p)) := by
  unfold get_entry
  rw [storeLookup_insert_self]
  rfl

/-- Claim **C6** (confirmed): reading back the id just returned by
`store_entry` yields an entry equal to the stored `MemoryEntry` in every
field (`extracted_values` is JSON-serialisable by construction in this
model), and `get_entry` on an id that no `store_entry` call ever returned
yields `None` and leaves the store as it was. -/
theorem C6_store_get_roundtrip (s : Store) (t : Nat) (e : MemoryEntry)
    (ops : List (Nat × MemoryEntry)) (id : String)
    (h : id ∉ ops.map (fun p => entryId p.1)) :
    (∃ s', get_entry (store_entry s t e).2 (store_entry s t e).1 = .ok (some e, s')) ∧
    get_entry (buildStore ops) id = .ok (none, buildStore ops) := by
  constructor
  · exact ⟨_, get_entry_insert_fresh s t e⟩
  · have h1 : storeLookup (buildStore ops) id = none :=
      storeLookup_foldl_none ops [] id rfl h
    unfold get_entry
    rw [h1]

/-- Witness for C6 at a concrete store, entry and fresh id. -/
theorem C6_store_get_roundtrip_w :
    ("entry:2" ∉ ([((1 : Nat), e0)].map (fun p => entryId p.1))) ∧
    ((∃ s', get_entry (store_entry [] 5 e0).2 (store_entry [] 5 e0).1 = .ok (some e0, s')) ∧
     get_entry (buildStore [(1, e0)]) "entry:2" = .ok (none, buildStore [(1, e0)])) := by
  have h : "entry:2" ∉ ([((1 : Nat), e0)].map (fun p => entryId p.1)) := by decide
  exact ⟨h, C6_store_get_roundtrip [] 5 e0 [(1, e0)] "entry:2" h⟩

/-- Claim **C5** (confirmed): `_detect_format` returns `"json"` for every
string that JSON-parses (email headers notwithstanding, since the JSON
check comes first), `"email"` for every string that fails JSON parsing
but whose `From` and `Subject` headers are present and non-empty (which
is what the truthiness test of `_is_email_format` means by "contains both
headers"), `"pdf"` for every bytes input `PdfReader` accepts, and raises
`ValueError("Unsupported format")` for every other input. -/
theorem C5_detect_format_characterization (L : Libs) (o : PyObj) :
    detect_format L o =
      (match o with
       | .pstr s =>
         if (L.jsonParse s).isSome then .ok "json"
         else if is_email_format L s then .ok "email"
         else .error (.valueError "Unsupported format")
       | .pbytes b =>
         if (L.pdfRead b).isSome then .ok "pdf"
         else .error (.valueError "Unsupported format")
       | .pdict _ => .error (.valueError "Unsupported format")
       | .pother => .error (.valueError "Unsupported format")) := by
  cases o with
  | pstr s =>
    cases h : L.jsonParse s with
    | none => simp [detect_format, h]
    | some v => simp [detect_format, h]
  | pbytes b =>
    cases h : L.pdfRead b with
    | none => simp [detect_format, h]
    | some pages => simp [detect_format, h]
  | pdict d => rfl
  | pother => rfl

/-- Claim **C2** (confirmed): every failure of the `/process` or
`/process/file` handler surfaces as an HTTP error with status code 500
and a string detail — in particular the `HTTPException(400, ...)` raised
in the unsupported-format branches is itself caught by the handlers'
`except Exception` clause and re-raised as a 500. -/
theorem C2_failures_surface_as_500 (L : Libs) (st : SysState) (content : String)
    (md : Option JDict) (b : Bytes) :
    (∀ e, process_input L st content md = .error e → e.status = 500) ∧
    (∀ e, process_file L st b = .error e → e.status = 500) := by
  constructor
  · intro e h
    unfold process_input at h
    cases hb : process_input_body L st content md with
    | ok v => rw [hb] at h; cases h
    | error ex => rw [hb] at h; cases h; rfl
  · intro e h
    unfold process_file at h
    cases hb : process_file_body L st b with
    | ok v => rw [hb] at h; cases h
    | error ex => rw [hb] at h; cases h; rfl

/-- Witness for C2: concrete failing requests to both endpoints (a text
body that is neither JSON nor an email, and an undecodable upload that is
not a PDF), both rejected with status 500. -/
theorem C2_failures_surface_as_500_w :
    process_input L0 st0 "hello" none = .error ⟨500, "Unsupported format"⟩ ∧
    process_file L0 st0 [0] = .error ⟨500, "Unsupported format"⟩ ∧
    (⟨500, "Unsupported format"⟩ : HTTPError).status = 500 :=
  ⟨rfl, rfl,
   (C2_failures_surface_as_500 L0 st0 "hello" none [0]).1 ⟨500, "Unsupported format"⟩ rfl⟩

/-! ## Characterising the keyword scoring -/

theorem pyMaxBySnd_four (i r c g : String) (a b n d : Nat) :
    pyMaxBySnd (i, a) [(r, b), (c, n), (g, d)] =
      (if b ≤ a ∧ n ≤ a ∧ d ≤ a then (i, a)
       else if n ≤ b ∧ d ≤ b then (r, b)
       else if d ≤ n then (c, n)
       else (g, d)) := by
  simp only [pyMaxBySnd, List.foldl]
  split_ifs <;> first | rfl | omega

theorem intent_scores_eq (c : String) :
    intent_scores c =
      [("invoice", keyword_score ["invoice", "bill", "payment", "amount due"] c),
       ("rfq", keyword_score ["rfq", "request for quote", "quote request", "pricing"] c),
       ("complaint", keyword_score ["complaint", "issue", "problem", "concern"] c),
       ("regulation", keyword_score ["regulation", "compliance", "policy", "requirement"] c)] := rfl

theorem analyze_eq (c : String) :
    analyze_content_for_intent c =
      (if keyword_score ["invoice", "bill", "payment", "amount due"] c = 0 ∧
          keyword_score ["rfq", "request for quote", "quote request", "pricing"] c = 0 ∧
          keyword_score ["complaint", "issue", "problem", "concern"] c = 0 ∧
          keyword_score ["regulation", "compliance", "policy", "requirement"] c = 0 then
        "unknown"
       else if keyword_score ["rfq", "request for quote", "quote request", "pricing"] c ≤
                 keyword_score ["invoice", "bill", "payment", "amount due"] c ∧
               keyword_score ["complaint", "issue", "problem", "concern"] c ≤
                 keyword_score ["invoice", "bill", "payment", "amount due"] c ∧
               keyword_score ["regulation", "compliance", "policy", "requirement"] c ≤
                 keyword_score ["invoice", "bill", "payment", "amount due"] c then
        "invoice"
       else if keyword_score ["complaint", "issue", "problem", "concern"] c ≤
                 keyword_score ["rfq", "request for quote", "quote request", "pricing"] c ∧
               keyword_score ["regulation", "compliance", "policy", "requirement"] c ≤
                 keyword_score ["rfq", "request for quote", "quote request", "pricing"] c then
        "rfq"
       else if keyword_score ["regulation", "compliance", "policy", "requirement"] c ≤
                 keyword_score ["complaint", "issue", "problem", "concern"] c then
        "complaint"
       else "regulation") := by
  unfold analyze_content_for_intent
  rw [intent_scores_eq]
  simp only [List.all_cons, List.all_nil, Bool.and_true, Bool.and_eq_true, beq_iff_eq]
  rw [pyMaxBySnd_four]
  split_ifs <;> rfl

theorem keyword_score_eq_zero_iff (kws : List String) (c : String) :
    keyword_score kws c = 0 ↔ ∀ k ∈ kws, pyIn k c = false := by
  unfold keyword_score
  rw [List.length_eq_zero, List.filter_eq_nil_iff]
  simp

theorem analyze_unknown_iff (c : String) :
    analyze_content_for_intent c = "unknown" ↔
      (∀ k ∈ ["invoice", "bill", "payment", "amount due",
              "rfq", "request for quote", "quote request", "pricing",
              "complaint", "issue", "problem", "concern",
              "regulation", "compliance", "policy", "requirement"], pyIn k c = false) := by
  rw [analyze_eq]
  by_cases h1 : (keyword_score ["invoice", "bill", "payment", "amount due"] c = 0 ∧
      keyword_score ["rfq", "request for quote", "quote request", "pricing"] c = 0 ∧
      keyword_score ["complaint", "issue", "problem", "concern"] c = 0 ∧
      keyword_score ["regulation", "compliance", "policy", "requirement"] c = 0)
  · rw [if_pos h1]
    simp only [eq_self_iff_true, true_iff]
    have p1 := (keyword_score_eq_zero_iff _ c).mp h1.1
    have p2 := (keyword_score_eq_zero_iff _ c).mp h1.2.1
    have p3 := (keyword_score_eq_zero_iff _ c).mp h1.2.2.1
    have p4 := (keyword_score_eq_zero_iff _ c).mp h1.2.2.2
    simp only [List.forall_mem_cons, List.mem_nil_iff, false_implies, implies_true, and_true] at p1 p2 p3 p4 ⊢
    exact ⟨p1.1, p1.2.1, p1.2.2.1, p1.2.2.2, p2.1, p2.2.1, p2.2.2.1, p2.2.2.2,
           p3.1, p3.2.1, p3.2.2.1, p3.2.2.2, p4.1, p4.2.1, p4.2.2.1, p4.2.2.2⟩
  · rw [if_neg h1]
    constructor
    · intro h
      exfalso
      split_ifs at h <;> exact absurd h (by decide)
    · intro hall
      exfalso
      apply h1
      simp only [List.forall_mem_cons, List.mem_nil_iff, false_implies, implies_true, and_true] at hall
      obtain ⟨q1, q2, q3, q4, q5, q6, q7, q8, q9, q10, q11, q12, q13, q14, q15, q16⟩ := hall
      refine ⟨(keyword_score_eq_zero_iff _ c).mpr ?_, (keyword_score_eq_zero_iff _ c).mpr ?_,
              (keyword_score_eq_zero_iff _ c).mpr ?_, (keyword_score_eq_zero_iff _ c).mpr ?_⟩ <;>
        simp only [List.forall_mem_cons, List.mem_nil_iff, false_implies, implies_true, and_true]
      exacts [⟨q1, q2, q3, q4⟩, ⟨q5, q6, q7, q8⟩, ⟨q9, q10, q11, q12⟩, ⟨q13, q14, q15, q16⟩]

/-- Claim **C4** (confirmed): `_analyze_content_for_intent` returns the intent
whose keyword list has the largest number of keywords occurring as
substrings of the content, ties broken by the mapping order invoice, rfq,
complaint, regulation (Python's `max` keeps the first maximal item), and
returns `"unknown"` exactly when no keyword of any intent occurs. -/
theorem C4_analyze_content_characterization (c : String) :
    (analyze_content_for_intent c =
      (if keyword_score ["invoice", "bill", "payment", "amount due"] c = 0 ∧
          keyword_score ["rfq", "request for quote", "quote request", "pricing"] c = 0 ∧
          keyword_score ["complaint", "issue", "problem", "concern"] c = 0 ∧
          keyword_score ["regulation", "compliance", "policy", "requirement"] c = 0 then
        "unknown"
       else if keyword_score ["rfq", "request for quote", "quote request", "pricing"] c ≤
                 keyword_score ["invoice", "bill", "payment", "amount due"] c ∧
               keyword_score ["complaint", "issue", "problem", "concern"] c ≤
                 keyword_score ["invoice", "bill", "payment", "amount due"] c ∧
               keyword_score ["regulation", "compliance", "policy", "requirement"] c ≤
                 keyword_score ["invoice", "bill", "payment", "amount due"] c then
        "invoice"
       else if keyword_score ["complaint", "issue", "problem", "concern"] c ≤
                 keyword_score ["rfq", "request for quote", "quote request", "pricing"] c ∧
               keyword_score ["regulation", "compliance", "policy", "requirement"] c ≤
                 keyword_score ["rfq", "request for quote", "quote request", "pricing"] c then
        "rfq"
       else if keyword_score ["regulation", "compliance", "policy", "requirement"] c ≤
                 keyword_score ["complaint", "issue", "problem", "concern"] c then
        "complaint"
       else "regulation")) ∧
    (analyze_content_for_intent c = "unknown" ↔
      (∀ k ∈ ["invoice", "bill", "payment", "amount due",
              "rfq", "request for quote", "quote request", "pricing",
              "complaint", "issue", "problem", "concern",
              "regulation", "compliance", "policy", "requirement"], pyIn k c = false)) :=
  ⟨analyze_eq c, analyze_unknown_iff c⟩

theorem regex_alts_eq_any (pat c : String) :
    regex_search_alts pat c = (splitBarAlts pat).any (fun k => pyIn k c) := rfl

/-- Claim **C10** (confirmed): `EmailAgent._analyze_intent` returns the first
intent, in the fixed order invoice, rfq, complaint, regulation, whose
pattern matches the lowercased `"{subject} {body}"`, and `"general"` when
none matches — and since the email patterns list exactly the classifier's
keywords, its fallback `"general"` occurs exactly where the classifier's
`_analyze_content_for_intent` would return its different fallback
`"unknown"`. -/
theorem C10_email_intent_first_match (subject body : String) :
    (analyze_intent subject body =
      (if regex_search_alts "invoice|bill|payment|amount due"
            (asciiLower (subject ++ " " ++ body)) then "invoice"
       else if regex_search_alts "rfq|request for quote|quote request|pricing"
            (asciiLower (subject ++ " " ++ body)) then "rfq"
       else if regex_search_alts "complaint|issue|problem|concern"
            (asciiLower (subject ++ " " ++ body)) then "complaint"
       else if regex_search_alts "regulation|compliance|policy|requirement"
            (asciiLower (subject ++ " " ++ body)) then "regulation"
       else "general")) ∧
    (analyze_intent subject body = "general" ↔
      analyze_content_for_intent (asciiLower (subject ++ " " ++ body)) = "unknown") ∧
    ("general" : String) ≠ "unknown" := by
  have hchain : analyze_intent subject body =
      (if regex_search_alts "invoice|bill|payment|amount due"
            (asciiLower (subject ++ " " ++ body)) then "invoice"
       else if regex_search_alts "rfq|request for quote|quote request|pricing"
            (asciiLower (subject ++ " " ++ body)) then "rfq"
       else if regex_search_alts "complaint|issue|problem|concern"
            (asciiLower (subject ++ " " ++ body)) then "complaint"
       else if regex_search_alts "regulation|compliance|policy|requirement"
            (asciiLower (subject ++ " " ++ body)) then "regulation"
       else "general") := by
    unfold analyze_intent intent_patterns
    cases h1 : regex_search_alts "invoice|bill|payment|amount due"
        (asciiLower (subject ++ " " ++ body)) with
    | true => simp [List.find?, h1]
    | false =>
      cases h2 : regex_search_alts "rfq|request for quote|quote request|pricing"
          (asciiLower (subject ++ " " ++ body)) with
      | true => simp [List.find?, h1, h2]
      | false =>
        cases h3 : regex_search_alts "complaint|issue|problem|concern"
            (asciiLower (subject ++ " " ++ body)) with
        | true => simp [List.find?, h1, h2, h3]
        | false =>
          cases h4 : regex_search_alts "regulation|compliance|policy|requirement"
              (asciiLower (subject ++ " " ++ body)) with
          | true => simp [List.find?, h1, h2, h3, h4]
          | false => simp [List.find?, h1, h2, h3, h4]
  refine ⟨hchain, ?_, by decide⟩
  rw [hchain, analyze_unknown_iff]
  have hgen : (if regex_search_alts "invoice|bill|payment|amount due"
            (asciiLower (subject ++ " " ++ body)) then "invoice"
       else if regex_search_alts "rfq|request for quote|quote request|pricing"
            (asciiLower (subject ++ " " ++ body)) then "rfq"
       else if regex_search_alts "complaint|issue|problem|concern"
            (asciiLower (subject ++ " " ++ body)) then "complaint"
       else if regex_search_alts "regulation|compliance|policy|requirement"
            (asciiLower (subject ++ " " ++ body)) then "regulation"
       else "general") = "general" ↔
      (regex_search_alts "invoice|bill|payment|amount due"
          (asciiLower (subject ++ " " ++ body)) = false ∧
       regex_search_alts "rfq|request for quote|quote request|pricing"
          (asciiLower (subject ++ " " ++ body)) = false ∧
       regex_search_alts "complaint|issue|problem|concern"
          (asciiLower (subject ++ " " ++ body)) = false ∧
       regex_search_alts "regulation|compliance|policy|requirement"
          (asciiLower (subject ++ " " ++ body)) = false) := by
    split_ifs with a1 a2 a3 a4 <;> simp_all
  rw [hgen]
  have b1 : regex_search_alts "invoice|bill|payment|amount due"
      (asciiLower (subject ++ " " ++ body)) =
      (["invoice", "bill", "payment", "amount due"].any
        (fun k => pyIn k (asciiLower (subject ++ " " ++ body)))) := rfl
  have b2 : regex_search_alts "rfq|request for quote|quote request|pricing"
      (asciiLower (subject ++ " " ++ body)) =
      (["rfq", "request for quote", "quote request", "pricing"].any
        (fun k => pyIn k (asciiLower (subject ++ " " ++ body)))) := rfl
  have b3 : regex_search_alts "complaint|issue|problem|concern"
      (asciiLower (subject ++ " " ++ body)) =
      (["complaint", "issue", "problem", "concern"].any
        (fun k => pyIn k (asciiLower (subject ++ " " ++ body)))) := rfl
  have b4 : regex_search_alts "regulation|compliance|policy|requirement"
      (asciiLower (subject ++ " " ++ body)) =
      (["regulation", "compliance", "policy", "requirement"].any
        (fun k => pyIn k (asciiLower (subject ++ " " ++ body)))) := rfl
  rw [b1, b2, b3, b4, List.any_eq_false, List.any_eq_false, List.any_eq_false,
      List.any_eq_false]
  simp only [List.forall_mem_cons, List.mem_nil_iff, false_implies, implies_true, and_true,
             Bool.not_eq_true]
  tauto

/-- Claim **C8** (confirmed): `_validate_schema` returns `valid = False` with an
`"Unsupported intent"` message for every intent outside the four schema
keys, and for a supported intent returns `valid = True` exactly when
pydantic validation of `schema_class(**data)` succeeds, otherwise
`valid = False` with the list of validation error strings (a non-dict
`data` makes the `**`-splat raise, which `_validate_schema` does not
catch). -/
theorem C8_validate_schema_characterization (data : JVal) (intent : String) :
    validate_schema data (.str intent) =
      (if intent ∈ SCHEMAS_keys then
        (match schema_call data with
         | .error e => .error e
         | .ok [] => .ok ⟨true, []⟩
         | .ok (e0 :: es) => .ok ⟨false, e0 :: es⟩)
       else .ok ⟨false, ["Unsupported intent: " ++ intent]⟩) := by
  unfold validate_schema
  dsimp only
  by_cases h : intent ∈ SCHEMAS_keys
  · have hc : SCHEMAS_keys.contains intent = true := List.elem_iff.mpr h
    rw [if_pos h, if_pos hc]
  · have hc : SCHEMAS_keys.contains intent = false := by
      rw [← Bool.not_eq_true]
      intro hcc
      exact h (List.elem_iff.mp hcc)
    rw [if_neg h, if_neg (by rw [hc]; exact Bool.false_ne_true)]

theorem detect_format_ok_cases (L : Libs) (o : PyObj) (f : String)
    (h : detect_format L o = .ok f) :
    (f = "json" ∧ ∃ s, o = .pstr s) ∨ (f = "email" ∧ ∃ s, o = .pstr s) ∨
    (f = "pdf" ∧ ∃ b, o = .pbytes b) := by
  cases o with
  | pstr s =>
    unfold detect_format at h
    dsimp only at h
    cases hj : L.jsonParse s with
    | some v =>
      rw [hj] at h
      dsimp only at h
      injection h with h2
      left
      exact ⟨h2.symm, s, rfl⟩
    | none =>
      rw [hj] at h
      dsimp only at h
      by_cases he : is_email_format L s = true
      · rw [if_pos he] at h
        injection h with h2
        right; left
        exact ⟨h2.symm, s, rfl⟩
      · rw [if_neg he] at h
        cases h
  | pbytes b =>
    unfold detect_format at h
    dsimp only at h
    cases hp : L.pdfRead b with
    | some pages =>
      rw [hp] at h
      dsimp only at h
      injection h with h2
      right; right
      exact ⟨h2.symm, b, rfl⟩
    | none =>
      rw [hp] at h
      dsimp only at h
      cases h
  | pdict d =>
    unfold detect_format at h
    dsimp only at h
    cases h
  | pother =>
    unfold detect_format at h
    dsimp only at h
    cases h

theorem detect_format_supported (L : Libs) (o : PyObj) (f : String)
    (h : detect_format L o = .ok f) : SUPPORTED_FORMATS.contains f = true := by
  rcases detect_format_ok_cases L o f h with ⟨rfl, _⟩ | ⟨rfl, _⟩ | ⟨rfl, _⟩ <;> rfl

/-- Claim **C7** (confirmed, with floats read as exact reals): whenever
`ClassifierAgent.process` completes, the returned confidence is the
average of the base confidence (0.8 for a supported format, 0.5
otherwise) and the intent confidence (0.9 for a supported intent, 0.6
otherwise); the detected format is always supported, so the value is
0.85 or 0.7. -/
theorem C7_confidence_values (L : Libs) (st : SysState) (content : PyObj) (md : JDict)
    (r : ClsResult) (st2 : SysState)
    (h : classifier_process L st content md = .ok (r, st2)) :
    SUPPORTED_FORMATS.contains r.format = true ∧
    r.confidence = calculate_confidence r.format r.intent ∧
    (r.confidence = 17/20 ∨ r.confidence = 7/10) := by
  unfold classifier_process at h
  cases hf : detect_format L content with
  | error e => rw [hf] at h; cases h
  | ok fmt =>
    rw [hf] at h
    dsimp only at h
    cases hi : detect_intent L content fmt with
    | error e => rw [hi] at h; cases h
    | ok intent =>
      rw [hi] at h
      dsimp only at h
      cases hl : log_processing st classifier_agent_id md
          [("format", .str fmt), ("intent", .str intent),
           ("confidence", .num (calculate_confidence fmt intent))] with
      | error e => rw [hl] at h; cases h
      | ok p =>
        obtain ⟨pid, pst⟩ := p
        rw [hl] at h
        dsimp only at h
        injection h with hh
        cases hh
        refine ⟨detect_format_supported L content fmt hf, rfl, ?_⟩
        have hcf : SUPPORTED_FORMATS.contains fmt = true :=
          detect_format_supported L content fmt hf
        by_cases hI : SUPPORTED_INTENTS.contains intent = true
        · left
          simp only [calculate_confidence, hcf, hI, if_true]
          norm_num
        · right
          rw [Bool.not_eq_true] at hI
          simp only [calculate_confidence, hcf, hI, if_true, Bool.false_eq_true, if_false]
          norm_num

/-- Witness for C7: a concrete completed run of the classifier (the
document `{}`), whose confidence comes out as 0.7. -/
theorem C7_confidence_values_w :
    (match classifier_process L1 st0 (.pstr jsonEmptyStr) [] with
     | .ok p => SUPPORTED_FORMATS.contains p.1.format = true ∧
                p.1.confidence = calculate_confidence p.1.format p.1.intent ∧
                (p.1.confidence = 17/20 ∨ p.1.confidence = 7/10)
     | .error _ => False) := by
  split
  · next p heq => exact C7_confidence_values L1 st0 (.pstr jsonEmptyStr) [] p.1 p.2 heq
  · next e heq =>
    have hs : (classifier_process L1 st0 (.pstr jsonEmptyStr) []).toOption.isSome = true := by
      decide
    rw [heq] at hs
    simp [Except.toOption] at hs

theorem analyze_mem5 (c : String) :
    analyze_content_for_intent c ∈
      (["invoice", "rfq", "complaint", "regulation", "unknown"] : List String) := by
  rw [analyze_eq]
  split_ifs <;> simp

theorem detect_intent_ok_cases (L : Libs) (content : PyObj) (fmt : String) (i : String)
    (h : detect_intent L content fmt = .ok i) :
    i ∈ (["invoice", "rfq", "complaint", "regulation", "unknown"] : List String) ∨
    (∃ s data t, content = .pstr s ∧ L.jsonParse s = some data ∧
      pyGetItem data "type" = .ok (.str t) ∧ i = asciiLower t) := by
  unfold detect_intent at h
  by_cases h1 : (fmt == "json") = true
  · rw [if_pos h1] at h
    cases content with
    | pstr s =>
      unfold detect_json_intent at h
      dsimp only at h
      cases hj : L.jsonParse s with
      | none => rw [hj] at h; cases h
      | some data =>
        rw [hj] at h
        dsimp only at h
        cases hc : pyContains data "type" with
        | error e => rw [hc] at h; cases h
        | ok b =>
          rw [hc] at h
          cases b with
          | true =>
            dsimp only at h
            cases hg : pyGetItem data "type" with
            | error e => rw [hg] at h; cases h
            | ok v =>
              rw [hg] at h
              dsimp only at h
              cases v with
              | str t =>
                injection h with h2
                right
                exact ⟨s, data, t, rfl, hj, hg, h2.symm⟩
              | num q => cases h
              | bool b => cases h
              | null => cases h
              | arr xs => cases h
              | obj fs => cases h
          | false =>
            dsimp only at h
            injection h with h2
            left
            rw [← h2]
            exact analyze_mem5 _
    | pbytes b => cases h
    | pdict d => cases h
    | pother => cases h
  · rw [if_neg h1] at h
    by_cases h2 : (fmt == "email") = true
    · rw [if_pos h2] at h
      cases content with
      | pstr s =>
        injection h with h3
        left
        rw [← h3]
        exact analyze_mem5 _
      | pbytes b => cases h
      | pdict d => cases h
      | pother => cases h
    · rw [if_neg h2] at h
      by_cases h3 : (fmt == "pdf") = true
      · rw [if_pos h3] at h
        cases content with
        | pstr s => cases h
        | pbytes b =>
          unfold detect_pdf_intent at h
          dsimp only at h
          cases hp : L.pdfRead b with
          | some pages =>
            rw [hp] at h
            injection h with h4
            left
            rw [← h4]
            exact analyze_mem5 _
          | none => rw [hp] at h; cases h
        | pdict d => cases h
        | pother => cases h
      · rw [if_neg h3] at h
        cases h

/-- Counterexample for C3: the classifier completes on the JSON document
`{"type": "Banana"}` with intent `"banana"`, which is not one of the four
coarse categories (and is not produced by keyword counting). -/
theorem C3_intent_not_in_four_cex :
    ((classifier_process L1 st0 (.pstr jsonBananaStr) []).toOption.map
      (fun p => p.1.intent)) = some "banana" ∧
    ¬ ("banana" ∈ (["invoice", "rfq", "complaint", "regulation"] : List String)) :=
  ⟨by decide, by decide⟩

/-- Claim **C3** (corrected): for every completed classification the intent is
one of the four coarse categories or `"unknown"` — the keyword-counting
range — **or**, for a JSON document with a top-level `"type"` entry, the
lowercased `"type"` value, which can be an arbitrary string. -/
theorem C3_intent_range_amended (L : Libs) (st : SysState) (content : PyObj) (md : JDict)
    (r : ClsResult) (st2 : SysState)
    (h : classifier_process L st content md = .ok (r, st2)) :
    r.intent ∈ (["invoice", "rfq", "complaint", "regulation", "unknown"] : List String) ∨
    (∃ s data t, content = .pstr s ∧ L.jsonParse s = some data ∧
      pyGetItem data "type" = .ok (.str t) ∧ r.intent = asciiLower t) := by
  unfold classifier_process at h
  cases hf : detect_format L content with
  | error e => rw [hf] at h; cases h
  | ok fmt =>
    rw [hf] at h
    dsimp only at h
    cases hi : detect_intent L content fmt with
    | error e => rw [hi] at h; cases h
    | ok intent =>
      rw [hi] at h
      dsimp only at h
      cases hl : log_processing st classifier_agent_id md
          [("format", .str fmt), ("intent", .str intent),
           ("confidence", .num (calculate_confidence fmt intent))] with
      | error e => rw [hl] at h; cases h
      | ok p =>
        obtain ⟨pid, pst⟩ := p
        rw [hl] at h
        dsimp only at h
        injection h with hh
        cases hh
        exact detect_intent_ok_cases L content fmt intent hi

/-- Witness for the amended C3 at the same concrete document. -/
theorem C3_intent_range_amended_w :
    (match classifier_process L1 st0 (.pstr jsonBananaStr) [] with
     | .ok p =>
       p.1.intent ∈ (["invoice", "rfq", "complaint", "regulation", "unknown"] : List String) ∨
       (∃ s data t, PyObj.pstr jsonBananaStr = PyObj.pstr s ∧ L1.jsonParse s = some data ∧
         pyGetItem data "type" = .ok (.str t) ∧ p.1.intent = asciiLower t)
     | .error _ => False) := by
  split
  · next p heq =>
    exact C3_intent_range_amended L1 st0 (.pstr jsonBananaStr) [] p.1 p.2 heq
  · next e heq =>
    have hs : (classifier_process L1 st0 (.pstr jsonBananaStr) []).toOption.isSome = true := by
      decide
    rw [heq] at hs
    simp [Except.toOption] at hs
